import Mathlib

/-!
Verification of the crpaas repository manager against its specification.

The sources under verification are the Angular frontend of crpaas
(repository-add-form, repository-list, bytes pipe, RepositoryService)
and, where the claim concerns the backend orchestrator whose code is not
part of the source tree, a model of the orchestrator built from the
specification (each such definition is marked `Modelled from the spec:`).
-/

namespace Crpaas

/-- A JavaScript number as the frontend manipulates it: either NaN or an
actual (rational) numeric value.  `Number(x)` coercions that fail yield
`nan`. -/
inductive JsNum where
  | nan
  | num (q : ℚ)
deriving DecidableEq, Repr

/-- The form model of `RepositoryAddFormComponent` (`this.model`), from
`repository-add-form.component.ts`.  `retention_days` is whatever the
bound input holds after `Number(...)` coercion; `auto_sync_schedule` is
`string | null`. -/
structure RepositoryModel where
  repo_url : String
  commit_id : String
  project_name : String
  retention_days : JsNum
  clone_single_branch : Bool
  clone_recursive : Bool
  auto_sync_enabled : Bool
  auto_sync_schedule : Option String
deriving DecidableEq, Repr

/-- The request body for `POST /api/v1/repository`, from
`repository-request.ts`.  Optional fields that `onSubmit` may `delete`
are `Option`s (`none` = the field is absent from the JSON object); for
`auto_sync_schedule` the outer `Option` is field presence and the inner
one distinguishes `null` from a string. -/
structure RepositoryRequest where
  repo_url : String
  commit_id : String
  project_name : Option String
  retention_days : ℚ
  clone_single_branch : Bool
  clone_recursive : Bool
  auto_sync_enabled : Bool
  auto_sync_schedule : Option (Option String)
deriving DecidableEq, Repr

/-- The request object built by `RepositoryAddFormComponent.onSubmit`
(`repository-add-form.component.ts`): spread of the model, then
`delete request.project_name` when the name is falsy (the empty string),
`Number(...)` coercion of `retention_days` with fallback 21 on NaN, and
`delete request.auto_sync_schedule` when auto-sync is not enabled. -/
def onSubmitRequest (m : RepositoryModel) : RepositoryRequest :=
  { repo_url := m.repo_url
    commit_id := m.commit_id
    project_name := if m.project_name = "" then none else some m.project_name
    retention_days := match m.retention_days with | .nan => 21 | .num q => q
    clone_single_branch := m.clone_single_branch
    clone_recursive := m.clone_recursive
    auto_sync_enabled := m.auto_sync_enabled
    auto_sync_schedule :=
      if m.auto_sync_enabled then some m.auto_sync_schedule else none }

/-- The body sent by `RepositoryService.updateRepositoriesAutoSync` for
each selected repository (`repository.service.ts`):
`{ auto_sync_enabled: enabled, auto_sync_schedule: enabled ? schedule : null }`.
The field is always present; `none` is JSON `null`. -/
structure AutoSyncPayload where
  auto_sync_enabled : Bool
  auto_sync_schedule : Option String
deriving DecidableEq, Repr

/-- `updateRepositoriesAutoSync`'s `updatePayload` from
`repository.service.ts`. -/
def updateRepositoriesAutoSyncPayload (enabled : Bool) (schedule : Option String) :
    AutoSyncPayload :=
  { auto_sync_enabled := enabled
    auto_sync_schedule := if enabled then schedule else none }

/-- An HTTP error response as seen by the form's error callback:
`err.status` and `err.error.detail` (absent/`null` is `none`). -/
structure HttpErrorResponse where
  status : Nat
  detail : Option String
deriving DecidableEq, Repr

/-- The fallback text in the 409 branch of `onSubmit`'s error handler. -/
def conflictFallbackMessage : String := "A project with this name already exists."

/-- The error message computed by the `error` callback of
`RepositoryAddFormComponent.onSubmit`
(`repository-add-form.component.ts`, lines 113-120):
on 409 it shows `err.error.detail || fallback` (JS `||`, so an absent,
null or empty detail falls back); otherwise a generic message built from
the status code alone. -/
def addRepositoryErrorMessage (err : HttpErrorResponse) : String :=
  if err.status = 409 then
    match err.detail with
    | some d => if d = "" then conflictFallbackMessage else d
    | none => conflictFallbackMessage
  else
    "Failed to add repository. Server returned status " ++ toString err.status ++ "."

/-- A repository record as the frontend sees it, from `repository.ts`. -/
structure Repository where
  id : Nat
  repo_url : String
  commit_id : String
  status : String
  pvc_path : String
  job_name : String
  created_at : String
  updated_at : String
  expired_at : Option String
  last_synced_at : Option String
  clone_single_branch : Bool
  clone_recursive : Bool
  auto_sync_enabled : Bool
  auto_sync_schedule : Option String
deriving DecidableEq, Repr

/-- The selection-preserving refresh of
`RepositoryListComponent.ngOnInit` (`repository-list.component.ts`,
lines 60-72): take the set of previously selected ids, then keep, from
the freshly fetched list, exactly the repositories whose id is in that
set. -/
def refreshSelection (selected repositories : List Repository) : List Repository :=
  let selectedIds := selected.map (fun repo => repo.id)
  repositories.filter (fun repo => selectedIds.contains repo.id)

/-- HTTP methods used by `RepositoryService`. -/
inductive HttpMethod where
  | get
  | post
  | put
  | delete
deriving DecidableEq, Repr

/-- A request as issued by `RepositoryService` (`repository.service.ts`):
method, path (without query string), query parameters, and — for the
endpoints whose JSON body the claims mention — the body as an object of
numeric fields (`some []` is the empty JSON object `\x7b\x7d`, `none`
means the body is not modelled here). -/
structure ClientRequest where
  method : HttpMethod
  path : String
  query : List (String × String) := []
  body : Option (List (String × ℚ)) := none
deriving DecidableEq, Repr

/-- `getRepositories`: `GET /api/v1/repositories`. -/
def getRepositoriesReq : ClientRequest :=
  { method := .get, path := "/api/v1/repositories" }

/-- `addRepository`: `POST /api/v1/repository`. -/
def addRepositoryReq : ClientRequest :=
  { method := .post, path := "/api/v1/repository" }

/-- `deleteRepository`: `DELETE /api/v1/repository/\x7bid\x7d`. -/
def deleteRepositoryReq (id : Nat) : ClientRequest :=
  { method := .delete, path := "/api/v1/repository/" ++ toString id }

/-- `syncRepository`: `POST /api/v1/repository/\x7bid\x7d/sync` with an
empty JSON body (`this.http.post(url, \x7b\x7d)`). -/
def syncRepositoryReq (id : Nat) : ClientRequest :=
  { method := .post, path := "/api/v1/repository/" ++ toString id ++ "/sync"
    body := some [] }

/-- `updateRepositoryExpiration`:
`PUT /api/v1/repository/\x7bid\x7d/expiration` with body
`\x7b retention_days \x7d`. -/
def updateRepositoryExpirationReq (id : Nat) (retention_days : ℚ) : ClientRequest :=
  { method := .put, path := "/api/v1/repository/" ++ toString id ++ "/expiration"
    body := some [("retention_days", retention_days)] }

/-- `updateRepositoriesAutoSync`'s per-repository request:
`PUT /api/v1/repository/\x7bid\x7d/autosync`. -/
def updateAutoSyncReq (id : Nat) : ClientRequest :=
  { method := .put, path := "/api/v1/repository/" ++ toString id ++ "/autosync" }

/-- `getRepositoryLogs`: `GET /api/v1/repository/\x7bid\x7d/logs`. -/
def getRepositoryLogsReq (id : Nat) : ClientRequest :=
  { method := .get, path := "/api/v1/repository/" ++ toString id ++ "/logs" }

/-- `getOpenGrokStatus`: `GET /api/v1/opengrok/status`. -/
def getOpenGrokStatusReq : ClientRequest :=
  { method := .get, path := "/api/v1/opengrok/status" }

/-- `getOpenGrokLogs`:
`GET /api/v1/opengrok/logs?pod_name=...&tail_lines=...`. -/
def getOpenGrokLogsReq (podName : String) (tailLines : Nat) : ClientRequest :=
  { method := .get, path := "/api/v1/opengrok/logs"
    query := [("pod_name", podName), ("tail_lines", toString tailLines)] }

/-- `getConfig`: `GET /api/v1/config`. -/
def getConfigReq : ClientRequest :=
  { method := .get, path := "/api/v1/config" }

/-- `exportRepositories`: `GET /api/v1/repositories/export`. -/
def exportRepositoriesReq : ClientRequest :=
  { method := .get, path := "/api/v1/repositories/export" }

/-- `importRepositories`: `POST /api/v1/repositories/import`. -/
def importRepositoriesReq : ClientRequest :=
  { method := .post, path := "/api/v1/repositories/import" }

/-- The endpoint table of spec §6, written from the spec's words (this is
the refinement side compared against the client code above): each row is
the method and the path, with `\x7bid\x7d` instantiated. -/
def specEndpointTable (id : Nat) : List (HttpMethod × String) :=
  [ (.get, "/repositories"),
    (.post, "/repository"),
    (.delete, "/repository/" ++ toString id),
    (.post, "/repository/" ++ toString id ++ "/sync"),
    (.put, "/repository/" ++ toString id ++ "/expiration"),
    (.put, "/repository/" ++ toString id ++ "/autosync"),
    (.get, "/repository/" ++ toString id ++ "/logs"),
    (.get, "/opengrok/status"),
    (.get, "/opengrok/logs"),
    (.get, "/config"),
    (.get, "/repositories/export"),
    (.post, "/repositories/import") ]

/-- The unit table of `BytesPipe` (`bytes.pipe.ts`):
`const units = ['KB', 'MB', 'GB', 'TB']`. -/
def bytesUnits : List String := ["KB", "MB", "GB", "TB"]

/-- The `while` loop of `BytesPipe.transform`: divide by 1024 while the
value is at least 1024 and `unitIndex < units.length - 1`, counting how
far up the unit table we moved. -/
def bytesLoop (v : ℚ) (i : ℕ) : ℚ × ℕ :=
  if h : 1024 ≤ v ∧ i < bytesUnits.length - 1 then
    bytesLoop (v / 1024) (i + 1)
  else
    (v, i)
termination_by bytesUnits.length - i
decreasing_by
  have h2 := h.2
  simp only [bytesUnits, List.length_cons, List.length_nil] at h2 ⊢
  omega

/-- Left-pad a digit string with zeros up to the given length. -/
def padZeros (s : String) (len : ℕ) : String :=
  String.mk (List.replicate (len - s.length) '0') ++ s

/-- Render a natural number `n` that stands for `n / 10 ^ p` with `p`
digits after the decimal point. -/
def toFixedNat (n p : ℕ) : String :=
  if p = 0 then toString n
  else toString (n / 10 ^ p) ++ "." ++ padZeros (toString (n % 10 ^ p)) p

/-- Model of JavaScript `Number.prototype.toFixed(p)` on exact rational
values: round `|x| * 10 ^ p` half away from zero to an integer, render
with `p` decimal places, and prepend the sign. -/
def toFixed (x : ℚ) (p : ℕ) : String :=
  if x < 0 then "-" ++ toFixedNat (⌊(-x) * 10 ^ p + 1/2⌋).toNat p
  else toFixedNat (⌊x * 10 ^ p + 1/2⌋).toNat p

/-- `BytesPipe.transform` (`bytes.pipe.ts`): `null`, `undefined`, NaN and
0 render as `"0 KB"`; any other value is rescaled by the 1024 loop and
rendered via `toFixed(precision)` followed by the reached unit.
`none` stands for both `null` and `undefined`. -/
def bytesTransform (value : Option JsNum) (precision : ℕ) : String :=
  match value with
  | none => "0 KB"
  | some .nan => "0 KB"
  | some (.num v) =>
    if v = 0 then "0 KB"
    else
      let r := bytesLoop v 0
      toFixed r.1 precision ++ " " ++ bytesUnits.getD r.2 ""

/-- Modelled from the spec: the lifecycle states of §4.2 of the backend
manager (the FastAPI `crpaas-manager` is not part of the source tree;
only its HTTP surface and the chart documentation are). -/
inductive RepoStatus where
  | pending
  | running
  | completed
  | failed
deriving DecidableEq, Repr

/-- Terminal states per spec §4.2: `Completed`, `Failed`. -/
def RepoStatus.isTerminal : RepoStatus → Bool
  | .completed => true
  | .failed => true
  | _ => false

/-- Modelled from the spec: the Repository row of §3 as the orchestrator
stores it.  `retentionSetAt` is the timestamp of the most recent
retention update (creation or renewal); times are abstract ticks. -/
structure RepoRecord where
  status : RepoStatus
  jobName : Nat
  createdAt : Nat
  updatedAt : Nat
  retentionDays : Nat
  retentionSetAt : Nat
  expiredAt : Option Nat
  lastSyncedAt : Option Nat
deriving DecidableEq, Repr

/-- Modelled from the spec: the orchestrator's shared state (§5) — the
durable keyed store of Repository rows (keyed by the unique repository
id, which stands for the unique project name as well), the set of
currently active (not yet terminal) cluster Jobs as `(repository id,
job name)` pairs, and the monotonic suffix counter of §4.1 used to
derive fresh Job names. -/
structure OrchState where
  repos : Nat → Option RepoRecord
  activeJobs : List (Nat × Nat)
  nextJobId : Nat

/-- Point update of the repository store. -/
def updateRepo (repos : Nat → Option RepoRecord) (rid : Nat) (r : RepoRecord) :
    Nat → Option RepoRecord :=
  fun x => if x = rid then some r else repos x

/-- Modelled from the spec: the synchronous outcome of a user command
(§7 taxonomy — conflicts carry a human-readable detail). -/
inductive ApiResult where
  | ok
  | conflict (detail : String)
  | notFound
deriving DecidableEq, Repr

/-- Modelled from the spec: the HTTP status each command outcome is
surfaced with (conflict is HTTP 409). -/
def apiStatus : ApiResult → Nat
  | .ok => 200
  | .conflict _ => 409
  | .notFound => 404

/-- Modelled from the spec: `POST /repository` (§3, §6) — registering an
already-registered repository is a conflict with a detail message;
otherwise a new row is created in `Pending`, `expired_at :=
now + retention_days`, and a fresh clone Job is started. -/
def handleCreate (s : OrchState) (rid now retention : Nat) : ApiResult × OrchState :=
  match s.repos rid with
  | some _ => (.conflict "Repository with this project name already exists", s)
  | none =>
    let j := s.nextJobId
    let r : RepoRecord :=
      { status := .pending, jobName := j, createdAt := now, updatedAt := now,
        retentionDays := retention, retentionSetAt := now,
        expiredAt := some (now + retention), lastSyncedAt := none }
    (.ok,
      { repos := updateRepo s.repos rid r,
        activeJobs := (rid, j) :: s.activeJobs,
        nextJobId := j + 1 })

/-- Modelled from the spec: `POST /repository/\x7bid\x7d/sync` (§4.2) —
only permitted from a terminal state, in which case the row is reset to
`Pending` with a fresh Job; a repository in `Pending` or `Running`
yields a conflict and the state is returned untouched. -/
def handleSync (s : OrchState) (rid now : Nat) : ApiResult × OrchState :=
  match s.repos rid with
  | none => (.notFound, s)
  | some r =>
    if r.status.isTerminal then
      let j := s.nextJobId
      (.ok,
        { repos := updateRepo s.repos rid { r with status := .pending, jobName := j, updatedAt := now },
          activeJobs := (rid, j) :: s.activeJobs,
          nextJobId := j + 1 })
    else (.conflict "Repository already has an active job", s)

/-- Modelled from the spec: `PUT /repository/\x7bid\x7d/expiration`
(§3) — renewing retention recomputes `expired_at` from now, not from
the original creation time. -/
def handleRenew (s : OrchState) (rid days now : Nat) : ApiResult × OrchState :=
  match s.repos rid with
  | none => (.notFound, s)
  | some r =>
    let r' := { r with retentionDays := days, retentionSetAt := now, updatedAt := now,
                       expiredAt := some (now + days) }
    (.ok, { s with repos := updateRepo s.repos rid r' })

/-- Modelled from the spec: `DELETE /repository/\x7bid\x7d` (§5) — the
live Job is deleted together with the row (success path). -/
def handleDelete (s : OrchState) (rid : Nat) : ApiResult × OrchState :=
  match s.repos rid with
  | none => (.notFound, s)
  | some _ =>
    (.ok,
      { s with repos := fun x => if x = rid then none else s.repos x,
               activeJobs := s.activeJobs.filter (fun p => p.1 != rid) })

/-- Modelled from the spec: the Poller observing the Job active (§4.2,
`Pending → Running`). -/
def observeRunning (s : OrchState) (rid : Nat) : OrchState :=
  match s.repos rid with
  | none => s
  | some r =>
    if r.status = .pending then
      { s with repos := updateRepo s.repos rid { r with status := .running } }
    else s

/-- Modelled from the spec: the Poller observing Job success (§4.2,
`Running → Completed`, `last_synced_at := now`); the finished Job is no
longer active. -/
def observeSucceeded (s : OrchState) (rid now : Nat) : OrchState :=
  match s.repos rid with
  | none => s
  | some r =>
    if r.status = .running then
      let r' := { r with status := .completed, lastSyncedAt := some now, updatedAt := now }
      { s with repos := updateRepo s.repos rid r',
               activeJobs := s.activeJobs.filter (fun p => p.1 != rid) }
    else s

/-- Modelled from the spec: the Poller observing terminal Job failure
(§4.2, `Running|Pending → Failed`); the failed Job is no longer
active. -/
def observeFailed (s : OrchState) (rid : Nat) : OrchState :=
  match s.repos rid with
  | none => s
  | some r =>
    if r.status = .pending ∨ r.status = .running then
      { s with repos := updateRepo s.repos rid { r with status := .failed },
               activeJobs := s.activeJobs.filter (fun p => p.1 != rid) }
    else s

/-- Modelled from the spec: one step of the orchestrator — any user
command (register, sync, renew retention, delete; the Sweeper and
Scheduler issue these same commands) or any Poller observation. -/
inductive Step : OrchState → OrchState → Prop where
  | create (s : OrchState) (rid now ret : Nat) : Step s (handleCreate s rid now ret).2
  | sync (s : OrchState) (rid now : Nat) : Step s (handleSync s rid now).2
  | renew (s : OrchState) (rid days now : Nat) : Step s (handleRenew s rid days now).2
  | deleteRepo (s : OrchState) (rid : Nat) : Step s (handleDelete s rid).2
  | observeRun (s : OrchState) (rid : Nat) : Step s (observeRunning s rid)
  | observeSucc (s : OrchState) (rid now : Nat) : Step s (observeSucceeded s rid now)
  | observeFail (s : OrchState) (rid : Nat) : Step s (observeFailed s rid)

/-- The empty initial state of the orchestrator. -/
def initState : OrchState :=
  { repos := fun _ => none, activeJobs := [], nextJobId := 0 }

/-- States reachable from the empty store by orchestrator steps. -/
inductive Reachable : OrchState → Prop where
  | init : Reachable initState
  | step {s s' : OrchState} : Reachable s → Step s s' → Reachable s'

/-- Number of active cluster Jobs associated with a repository. -/
def jobCount (s : OrchState) (rid : Nat) : Nat :=
  (s.activeJobs.filter (fun p => p.1 == rid)).length

/-- The exclusivity invariant of §3: an unregistered repository has no
active Job, a terminal one has none, and a registered one has at most
one. -/
def JobInv (s : OrchState) : Prop :=
  ∀ rid,
    (s.repos rid = none → jobCount s rid = 0) ∧
    (∀ r, s.repos rid = some r → r.status.isTerminal = true → jobCount s rid = 0) ∧
    jobCount s rid ≤ 1

/-- The retention invariant of §3: `expired_at` always equals the last
retention update's timestamp plus `retention_days`. -/
def RetentionInv (s : OrchState) : Prop :=
  ∀ rid r, s.repos rid = some r → r.expiredAt = some (r.retentionSetAt + r.retentionDays)

/-- A sample form model with the project name left empty. -/
def sampleModelAnon : RepositoryModel :=
  { repo_url := "https://example.com/repo.git", commit_id := "main", project_name := ""
    retention_days := .num 21, clone_single_branch := true, clone_recursive := false
    auto_sync_enabled := false, auto_sync_schedule := some "00:00" }

/-- A sample form model with a project name filled in and auto-sync on. -/
def sampleModelNamed : RepositoryModel :=
  { repo_url := "https://example.com/repo.git", commit_id := "main", project_name := "proj"
    retention_days := .num 21, clone_single_branch := true, clone_recursive := false
    auto_sync_enabled := true, auto_sync_schedule := some "12:30" }

/-- The row created by registering repository 0 at tick 10 with 21
retention days. -/
def sampleRecord1 : RepoRecord :=
  { status := .pending, jobName := 0, createdAt := 10, updatedAt := 10
    retentionDays := 21, retentionSetAt := 10
    expiredAt := some (10 + 21), lastSyncedAt := none }

/-- The orchestrator state after that registration. -/
def sampleState1 : OrchState := (handleCreate initState 0 10 21).2

theorem count_cons_self (l : List (Nat × Nat)) (rid j : Nat) :
    (((rid, j) :: l).filter (fun p => p.1 == rid)).length =
      (l.filter (fun p => p.1 == rid)).length + 1 := by
  simp [List.filter_cons]

theorem count_cons_ne (l : List (Nat × Nat)) (a j x : Nat) (h : ¬ a = x) :
    (((a, j) :: l).filter (fun p => p.1 == x)).length =
      (l.filter (fun p => p.1 == x)).length := by
  simp [List.filter_cons, h]

theorem count_removeAll_self (l : List (Nat × Nat)) (rid : Nat) :
    ((l.filter (fun p => p.1 != rid)).filter (fun p => p.1 == rid)).length = 0 := by
  induction l with
  | nil => rfl
  | cons hd tl ih =>
    by_cases h : hd.1 = rid
    · rw [List.filter_cons, if_neg (by simp [h])]
      exact ih
    · rw [List.filter_cons, if_pos (by simp [h]), List.filter_cons, if_neg (by simp [h])]
      exact ih

theorem count_removeAll_ne (l : List (Nat × Nat)) (rid x : Nat) (h : ¬ x = rid) :
    ((l.filter (fun p => p.1 != rid)).filter (fun p => p.1 == x)).length =
      (l.filter (fun p => p.1 == x)).length := by
  induction l with
  | nil => rfl
  | cons hd tl ih =>
    by_cases h1 : hd.1 = rid
    · rw [List.filter_cons, if_neg (by simp [h1]), ih,
          List.filter_cons, if_neg (by simp [h1]; exact fun hh => h hh.symm)]
    · by_cases h2 : hd.1 = x
      · rw [List.filter_cons, if_pos (by simp [h1]),
            List.filter_cons, if_pos (by simp [h2]),
            List.filter_cons, if_pos (by simp [h2])]
        simp only [List.length_cons]
        rw [ih]
      · rw [List.filter_cons, if_pos (by simp [h1]),
            List.filter_cons, if_neg (by simp [h2]),
            List.filter_cons, if_neg (by simp [h2])]
        exact ih

theorem step_preserves {s s' : OrchState} (hs : Step s s')
    (hJ : JobInv s) (hR : RetentionInv s) : JobInv s' ∧ RetentionInv s' := by
  cases hs with
  | create rid now ret =>
    cases hrep : s.repos rid with
    | some r =>
      simp only [handleCreate, hrep]
      exact ⟨hJ, hR⟩
    | none =>
      constructor
      · intro x
        by_cases hx : x = rid
        · subst hx
          refine ⟨?_, ?_, ?_⟩
          · intro hnone
            simp [handleCreate, hrep, updateRepo] at hnone
          · intro r2 hr2 hterm
            simp [handleCreate, hrep, updateRepo] at hr2
            rw [← hr2] at hterm
            simp [RepoStatus.isTerminal] at hterm
          · have h0 : jobCount s x = 0 := (hJ x).1 hrep
            simp only [jobCount] at h0 ⊢
            simp only [handleCreate, hrep]
            rw [count_cons_self, h0]
        · refine ⟨?_, ?_, ?_⟩
          · intro hnone
            simp only [handleCreate, hrep, updateRepo] at hnone
            rw [if_neg hx] at hnone
            have h0 : jobCount s x = 0 := (hJ x).1 hnone
            simp only [jobCount] at h0 ⊢
            simp only [handleCreate, hrep]
            rw [count_cons_ne _ _ _ _ (fun hh => hx hh.symm), h0]
          · intro r2 hr2 hterm
            simp only [handleCreate, hrep, updateRepo] at hr2
            rw [if_neg hx] at hr2
            have h0 : jobCount s x = 0 := (hJ x).2.1 r2 hr2 hterm
            simp only [jobCount] at h0 ⊢
            simp only [handleCreate, hrep]
            rw [count_cons_ne _ _ _ _ (fun hh => hx hh.symm), h0]
          · have h1 : jobCount s x ≤ 1 := (hJ x).2.2
            simp only [jobCount] at h1 ⊢
            simp only [handleCreate, hrep]
            rw [count_cons_ne _ _ _ _ (fun hh => hx hh.symm)]
            exact h1
      · intro x r2 hr2
        by_cases hx : x = rid
        · subst hx
          simp [handleCreate, hrep, updateRepo] at hr2
          subst hr2
          rfl
        · simp only [handleCreate, hrep, updateRepo] at hr2
          rw [if_neg hx] at hr2
          exact hR x r2 hr2
  | sync rid now =>
    cases hrep : s.repos rid with
    | none =>
      simp only [handleSync, hrep]
      exact ⟨hJ, hR⟩
    | some r =>
      by_cases hterm : r.status.isTerminal
      · constructor
        · intro x
          by_cases hx : x = rid
          · subst hx
            refine ⟨?_, ?_, ?_⟩
            · intro hnone
              simp [handleSync, hrep, hterm, updateRepo] at hnone
            · intro r2 hr2 hterm2
              simp [handleSync, hrep, hterm, updateRepo] at hr2
              rw [← hr2] at hterm2
              simp [RepoStatus.isTerminal] at hterm2
            · have h0 : jobCount s x = 0 := (hJ x).2.1 r hrep hterm
              simp only [jobCount] at h0 ⊢
              simp only [handleSync, hrep, hterm, if_pos]
              rw [count_cons_self, h0]
          · refine ⟨?_, ?_, ?_⟩
            · intro hnone
              simp only [handleSync, hrep, hterm, if_pos, updateRepo] at hnone
              rw [if_neg hx] at hnone
              have h0 : jobCount s x = 0 := (hJ x).1 hnone
              simp only [jobCount] at h0 ⊢
              simp only [handleSync, hrep, hterm, if_pos]
              rw [count_cons_ne _ _ _ _ (fun hh => hx hh.symm), h0]
            · intro r2 hr2 hterm2
              simp only [handleSync, hrep, hterm, if_pos, updateRepo] at hr2
              rw [if_neg hx] at hr2
              have h0 : jobCount s x = 0 := (hJ x).2.1 r2 hr2 hterm2
              simp only [jobCount] at h0 ⊢
              simp only [handleSync, hrep, hterm, if_pos]
              rw [count_cons_ne _ _ _ _ (fun hh => hx hh.symm), h0]
            · have h1 : jobCount s x ≤ 1 := (hJ x).2.2
              simp only [jobCount] at h1 ⊢
              simp only [handleSync, hrep, hterm, if_pos]
              rw [count_cons_ne _ _ _ _ (fun hh => hx hh.symm)]
              exact h1
        · intro x r2 hr2
          by_cases hx : x = rid
          · subst hx
            simp [handleSync, hrep, hterm, updateRepo] at hr2
            subst hr2
            simpa using hR x r hrep
          · simp only [handleSync, hrep, hterm, if_pos, updateRepo] at hr2
            rw [if_neg hx] at hr2
            exact hR x r2 hr2
      · simp only [handleSync, hrep, hterm, if_neg]
        exact ⟨hJ, hR⟩
  | renew rid days now =>
    cases hrep : s.repos rid with
    | none =>
      simp only [handleRenew, hrep]
      exact ⟨hJ, hR⟩
    | some r =>
      constructor
      · intro x
        by_cases hx : x = rid
        · subst hx
          refine ⟨?_, ?_, ?_⟩
          · intro hnone
            simp [handleRenew, hrep, updateRepo] at hnone
          · intro r2 hr2 hterm2
            simp [handleRenew, hrep, updateRepo] at hr2
            have h0 : jobCount s x = 0 := by
              apply (hJ x).2.1 r hrep
              rw [← hr2] at hterm2
              simpa using hterm2
            simpa [handleRenew, hrep, jobCount] using h0
          · have h1 : jobCount s x ≤ 1 := (hJ x).2.2
            simpa [handleRenew, hrep, jobCount] using h1
        · refine ⟨?_, ?_, ?_⟩
          · intro hnone
            simp only [handleRenew, hrep, updateRepo] at hnone
            rw [if_neg hx] at hnone
            have h0 : jobCount s x = 0 := (hJ x).1 hnone
            simpa [handleRenew, hrep, jobCount] using h0
          · intro r2 hr2 hterm2
            simp only [handleRenew, hrep, updateRepo] at hr2
            rw [if_neg hx] at hr2
            have h0 : jobCount s x = 0 := (hJ x).2.1 r2 hr2 hterm2
            simpa [handleRenew, hrep, jobCount] using h0
          · have h1 : jobCount s x ≤ 1 := (hJ x).2.2
            simpa [handleRenew, hrep, jobCount] using h1
      · intro x r2 hr2
        by_cases hx : x = rid
        · subst hx
          simp [handleRenew, hrep, updateRepo] at hr2
          subst hr2
          rfl
        · simp only [handleRenew, hrep, updateRepo] at hr2
          rw [if_neg hx] at hr2
          exact hR x r2 hr2
  | deleteRepo rid =>
    cases hrep : s.repos rid with
    | none =>
      simp only [handleDelete, hrep]
      exact ⟨hJ, hR⟩
    | some r =>
      constructor
      · intro x
        by_cases hx : x = rid
        · subst hx
          refine ⟨?_, ?_, ?_⟩
          · intro _
            simp only [handleDelete, hrep, jobCount]
            exact count_removeAll_self _ _
          · intro r2 hr2 _
            simp [handleDelete, hrep] at hr2
          · simp only [handleDelete, hrep, jobCount]
            rw [count_removeAll_self]
            omega
        · refine ⟨?_, ?_, ?_⟩
          · intro hnone
            simp only [handleDelete, hrep] at hnone
            rw [if_neg hx] at hnone
            have h0 : jobCount s x = 0 := (hJ x).1 hnone
            simp only [jobCount] at h0 ⊢
            simp only [handleDelete, hrep]
            rw [count_removeAll_ne _ _ _ hx, h0]
          · intro r2 hr2 hterm2
            simp only [handleDelete, hrep] at hr2
            rw [if_neg hx] at hr2
            have h0 : jobCount s x = 0 := (hJ x).2.1 r2 hr2 hterm2
            simp only [jobCount] at h0 ⊢
            simp only [handleDelete, hrep]
            rw [count_removeAll_ne _ _ _ hx, h0]
          · have h1 : jobCount s x ≤ 1 := (hJ x).2.2
            simp only [jobCount] at h1 ⊢
            simp only [handleDelete, hrep]
            rw [count_removeAll_ne _ _ _ hx]
            exact h1
      · intro x r2 hr2
        by_cases hx : x = rid
        · subst hx
          simp [handleDelete, hrep] at hr2
        · simp only [handleDelete, hrep] at hr2
          rw [if_neg hx] at hr2
          exact hR x r2 hr2
  | observeRun rid =>
    cases hrep : s.repos rid with
    | none =>
      simp only [observeRunning, hrep]
      exact ⟨hJ, hR⟩
    | some r =>
      by_cases hp : r.status = .pending
      · constructor
        · intro x
          by_cases hx : x = rid
          · subst hx
            refine ⟨?_, ?_, ?_⟩
            · intro hnone
              simp [observeRunning, hrep, hp, updateRepo] at hnone
            · intro r2 hr2 hterm2
              simp [observeRunning, hrep, hp, updateRepo] at hr2
              rw [← hr2] at hterm2
              simp [RepoStatus.isTerminal] at hterm2
            · have h1 : jobCount s x ≤ 1 := (hJ x).2.2
              simpa [observeRunning, hrep, hp, jobCount] using h1
          · refine ⟨?_, ?_, ?_⟩
            · intro hnone
              simp only [observeRunning, hrep, hp, if_pos, updateRepo] at hnone
              rw [if_neg hx] at hnone
              have h0 : jobCount s x = 0 := (hJ x).1 hnone
              simpa [observeRunning, hrep, hp, jobCount] using h0
            · intro r2 hr2 hterm2
              simp only [observeRunning, hrep, hp, if_pos, updateRepo] at hr2
              rw [if_neg hx] at hr2
              have h0 : jobCount s x = 0 := (hJ x).2.1 r2 hr2 hterm2
              simpa [observeRunning, hrep, hp, jobCount] using h0
            · have h1 : jobCount s x ≤ 1 := (hJ x).2.2
              simpa [observeRunning, hrep, hp, jobCount] using h1
        · intro x r2 hr2
          by_cases hx : x = rid
          · subst hx
            simp [observeRunning, hrep, hp, updateRepo] at hr2
            subst hr2
            simpa using hR x r hrep
          · simp only [observeRunning, hrep, hp, if_pos, updateRepo] at hr2
            rw [if_neg hx] at hr2
            exact hR x r2 hr2
      · simp only [observeRunning, hrep, hp, if_neg]
        exact ⟨hJ, hR⟩
  | observeSucc rid now =>
    cases hrep : s.repos rid with
    | none =>
      simp only [observeSucceeded, hrep]
      exact ⟨hJ, hR⟩
    | some r =>
      by_cases hp : r.status = .running
      · constructor
        · intro x
          by_cases hx : x = rid
          · subst hx
            refine ⟨?_, ?_, ?_⟩
            · intro _
              simp only [observeSucceeded, hrep, hp, if_pos, jobCount]
              exact count_removeAll_self _ _
            · intro _ _ _
              simp only [observeSucceeded, hrep, hp, if_pos, jobCount]
              exact count_removeAll_self _ _
            · simp only [observeSucceeded, hrep, hp, if_pos, jobCount]
              rw [count_removeAll_self]
              omega
          · refine ⟨?_, ?_, ?_⟩
            · intro hnone
              simp only [observeSucceeded, hrep, hp, if_pos, updateRepo] at hnone
              rw [if_neg hx] at hnone
              have h0 : jobCount s x = 0 := (hJ x).1 hnone
              simp only [jobCount] at h0 ⊢
              simp only [observeSucceeded, hrep, hp, if_pos]
              rw [count_removeAll_ne _ _ _ hx, h0]
            · intro r2 hr2 hterm2
              simp only [observeSucceeded, hrep, hp, if_pos, updateRepo] at hr2
              rw [if_neg hx] at hr2
              have h0 : jobCount s x = 0 := (hJ x).2.1 r2 hr2 hterm2
              simp only [jobCount] at h0 ⊢
              simp only [observeSucceeded, hrep, hp, if_pos]
              rw [count_removeAll_ne _ _ _ hx, h0]
            · have h1 : jobCount s x ≤ 1 := (hJ x).2.2
              simp only [jobCount] at h1 ⊢
              simp only [observeSucceeded, hrep, hp, if_pos]
              rw [count_removeAll_ne _ _ _ hx]
              exact h1
        · intro x r2 hr2
          by_cases hx : x = rid
          · subst hx
            simp [observeSucceeded, hrep, hp, updateRepo] at hr2
            subst hr2
            simpa using hR x r hrep
          · simp only [observeSucceeded, hrep, hp, if_pos, updateRepo] at hr2
            rw [if_neg hx] at hr2
            exact hR x r2 hr2
      · simp only [observeSucceeded, hrep, hp, if_neg]
        exact ⟨hJ, hR⟩
  | observeFail rid =>
    cases hrep : s.repos rid with
    | none =>
      simp only [observeFailed, hrep]
      exact ⟨hJ, hR⟩
    | some r =>
      by_cases hp : r.status = .pending ∨ r.status = .running
      · constructor
        · intro x
          by_cases hx : x = rid
          · subst hx
            refine ⟨?_, ?_, ?_⟩
            · intro _
              simp only [observeFailed, hrep, hp, if_pos, jobCount]
              exact count_removeAll_self _ _
            · intro _ _ _
              simp only [observeFailed, hrep, hp, if_pos, jobCount]
              exact count_removeAll_self _ _
            · simp only [observeFailed, hrep, hp, if_pos, jobCount]
              rw [count_removeAll_self]
              omega
          · refine ⟨?_, ?_, ?_⟩
            · intro hnone
              simp only [observeFailed, hrep, hp, if_pos, updateRepo] at hnone
              rw [if_neg hx] at hnone
              have h0 : jobCount s x = 0 := (hJ x).1 hnone
              simp only [jobCount] at h0 ⊢
              simp only [observeFailed, hrep, hp, if_pos]
              rw [count_removeAll_ne _ _ _ hx, h0]
            · intro r2 hr2 hterm2
              simp only [observeFailed, hrep, hp, if_pos, updateRepo] at hr2
              rw [if_neg hx] at hr2
              have h0 : jobCount s x = 0 := (hJ x).2.1 r2 hr2 hterm2
              simp only [jobCount] at h0 ⊢
              simp only [observeFailed, hrep, hp, if_pos]
              rw [count_removeAll_ne _ _ _ hx, h0]
            · have h1 : jobCount s x ≤ 1 := (hJ x).2.2
              simp only [jobCount] at h1 ⊢
              simp only [observeFailed, hrep, hp, if_pos]
              rw [count_removeAll_ne _ _ _ hx]
              exact h1
        · intro x r2 hr2
          by_cases hx : x = rid
          · subst hx
            simp [observeFailed, hrep, hp, updateRepo] at hr2
            subst hr2
            simpa using hR x r hrep
          · simp only [observeFailed, hrep, hp, if_pos, updateRepo] at hr2
            rw [if_neg hx] at hr2
            exact hR x r2 hr2
      · simp only [observeFailed, hrep, hp, if_neg]
        exact ⟨hJ, hR⟩

theorem reachable_inv {s : OrchState} (h : Reachable s) : JobInv s ∧ RetentionInv s := by
  induction h with
  | init =>
    constructor
    · intro rid
      refine ⟨fun _ => rfl, ?_, ?_⟩
      · intro r hr
        simp [initState] at hr
      · simp [jobCount, initState]
    · intro rid r hr
      simp [initState] at hr
  | step _ hs ih => exact step_preserves hs ih.1 ih.2

theorem bytesLoop_spec : ∀ (v : ℚ) (i : ℕ), i ≤ 3 →
    ∃ k, bytesLoop v i = (v / 1024 ^ k, i + k) ∧ i + k ≤ 3 ∧
      (v / 1024 ^ k < 1024 ∨ i + k = 3) ∧
      (∀ m, m < k → 1024 ≤ v / 1024 ^ m) := by
  intro v i
  induction v, i using bytesLoop.induct with
  | case1 v i h ih =>
    intro _
    have hlt : i < 3 := by
      have h2 := h.2
      simpa [bytesUnits] using h2
    obtain ⟨k, hk1, hk2, hk3, hk4⟩ := ih (by omega)
    refine ⟨k + 1, ?_, by omega, ?_, ?_⟩
    · rw [bytesLoop, dif_pos h, hk1]
      have : v / 1024 / 1024 ^ k = v / 1024 ^ (k + 1) := by
        rw [div_div, ← pow_succ']
      rw [this]
      have : i + 1 + k = i + (k + 1) := by omega
      rw [this]
    · have : v / 1024 / 1024 ^ k = v / 1024 ^ (k + 1) := by
        rw [div_div, ← pow_succ']
      rw [this] at hk3
      rcases hk3 with h3 | h3
      · exact Or.inl h3
      · exact Or.inr (by omega)
    · intro m hm
      cases m with
      | zero => simpa using h.1
      | succ m' =>
        have := hk4 m' (by omega)
        rwa [div_div, ← pow_succ'] at this
  | case2 v i h =>
    intro hi
    refine ⟨0, ?_, by omega, ?_, ?_⟩
    · rw [bytesLoop, dif_neg h]
      simp
    · by_cases hv : 1024 ≤ v
      · have : ¬ i < 3 := by
          intro hlt
          exact h ⟨hv, by simpa [bytesUnits] using hlt⟩
        exact Or.inr (by omega)
      · exact Or.inl (by simpa using lt_of_not_le hv)
    · intro m hm
      omega

theorem api_fold_repositories :
    ("/api/v1" : String) ++ "/repositories" = "/api/v1/repositories" := rfl

theorem api_fold_repository :
    ("/api/v1" : String) ++ "/repository" = "/api/v1/repository" := rfl

theorem api_fold_repository_slash :
    ("/api/v1" : String) ++ "/repository/" = "/api/v1/repository/" := rfl

theorem api_fold_opengrok_status :
    ("/api/v1" : String) ++ "/opengrok/status" = "/api/v1/opengrok/status" := rfl

theorem api_fold_opengrok_logs :
    ("/api/v1" : String) ++ "/opengrok/logs" = "/api/v1/opengrok/logs" := rfl

theorem api_fold_config :
    ("/api/v1" : String) ++ "/config" = "/api/v1/config" := rfl

theorem api_fold_export :
    ("/api/v1" : String) ++ "/repositories/export" = "/api/v1/repositories/export" := rfl

theorem api_fold_import :
    ("/api/v1" : String) ++ "/repositories/import" = "/api/v1/repositories/import" := rfl

/-- Claim C1: in every reachable orchestrator state, each repository has
at most one associated active Job, and a sync or clone (create) command
for a repository whose status is `Pending` or `Running` (non-terminal)
is rejected with a conflict, leaving the state unchanged, rather than
creating a second concurrent Job. -/
theorem C1_at_most_one_active_job (s : OrchState) (h : Reachable s) :
    (∀ rid, jobCount s rid ≤ 1) ∧
    (∀ rid r now ret, s.repos rid = some r → r.status.isTerminal = false →
      (∃ d, handleSync s rid now = (.conflict d, s)) ∧
      (∃ d, handleCreate s rid now ret = (.conflict d, s))) := by
  have hinv := reachable_inv h
  constructor
  · intro rid
    exact (hinv.1 rid).2.2
  · intro rid r now ret hr hterm
    constructor
    · refine ⟨"Repository already has an active job", ?_⟩
      simp [handleSync, hr, hterm]
    · refine ⟨"Repository with this project name already exists", ?_⟩
      simp [handleCreate, hr]

/-- Witness for C1 at the state reached by one registration. -/
theorem C1_witness :
    jobCount sampleState1 0 ≤ 1 ∧
    (∃ d, handleSync sampleState1 0 5 = (.conflict d, sampleState1)) := by
  have h := C1_at_most_one_active_job sampleState1
    (Reachable.step Reachable.init (Step.create initState 0 10 21))
  exact ⟨h.1 0, (h.2 0 sampleRecord1 5 7 rfl rfl).1⟩

/-- Claim C2: issuing `sync` against a repository in `Pending` or
`Running` returns a conflict and leaves the whole stored state — in
particular the repository's record — unchanged. -/
theorem C2_sync_conflict_leaves_state (s : OrchState) (rid now : Nat) (r : RepoRecord)
    (hr : s.repos rid = some r) (hnt : r.status = .pending ∨ r.status = .running) :
    (∃ d, handleSync s rid now = (.conflict d, s)) ∧
    (handleSync s rid now).2 = s ∧
    (handleSync s rid now).2.repos rid = some r := by
  have hterm : r.status.isTerminal = false := by
    rcases hnt with h | h <;> rw [h] <;> rfl
  refine ⟨⟨"Repository already has an active job", ?_⟩, ?_, ?_⟩
  · simp [handleSync, hr, hterm]
  · simp [handleSync, hr, hterm]
  · simp [handleSync, hr, hterm]

/-- Witness for C2 on a freshly registered (hence `Pending`)
repository. -/
theorem C2_witness :
    (∃ d, handleSync sampleState1 0 5 = (.conflict d, sampleState1)) ∧
    (handleSync sampleState1 0 5).2 = sampleState1 ∧
    (handleSync sampleState1 0 5).2.repos 0 = some sampleRecord1 :=
  C2_sync_conflict_leaves_state sampleState1 0 5 sampleRecord1 rfl (Or.inl rfl)

/-- Claim C3: a create against an existing project name yields a
conflict (HTTP 409) with a non-empty detail, and the client's error
handler surfaces a 409 detail verbatim; any non-409 failure produces
the generic message, which is independent of the server's detail. -/
theorem C3_conflict_detail_verbatim (err : HttpErrorResponse) (d : String)
    (s : OrchState) (rid now ret : Nat) :
    (err.status = 409 → err.detail = some d → d ≠ "" →
      addRepositoryErrorMessage err = d) ∧
    (err.status ≠ 409 →
      addRepositoryErrorMessage err =
        "Failed to add repository. Server returned status " ++ toString err.status ++ "." ∧
      addRepositoryErrorMessage { status := err.status, detail := none } =
        addRepositoryErrorMessage err) ∧
    ((s.repos rid).isSome = true →
      ∃ detail, handleCreate s rid now ret = (.conflict detail, s) ∧
        detail ≠ "" ∧ apiStatus (.conflict detail) = 409 ∧
        addRepositoryErrorMessage { status := 409, detail := some detail } = detail) := by
  refine ⟨?_, ?_, ?_⟩
  · intro h1 h2 h3
    simp [addRepositoryErrorMessage, h1, h2, h3]
  · intro h
    constructor
    · simp [addRepositoryErrorMessage, h]
    · simp [addRepositoryErrorMessage, h]
  · intro h
    cases hrep : s.repos rid with
    | none => rw [hrep] at h; simp at h
    | some r =>
      refine ⟨"Repository with this project name already exists", ?_, by decide, rfl, by decide⟩
      simp [handleCreate, hrep]

/-- Witness for C3: a concrete 409 with detail, and the conflict
produced by re-registering repository 0. -/
theorem C3_witness :
    addRepositoryErrorMessage { status := 409, detail := some "dup" } = "dup" ∧
    (∃ detail, handleCreate sampleState1 0 5 7 = (.conflict detail, sampleState1) ∧
      detail ≠ "" ∧ apiStatus (.conflict detail) = 409 ∧
      addRepositoryErrorMessage { status := 409, detail := some detail } = detail) := by
  constructor
  · exact (C3_conflict_detail_verbatim ⟨409, some "dup"⟩ "dup" sampleState1 0 5 7).1
      rfl rfl (by decide)
  · exact (C3_conflict_detail_verbatim ⟨409, some "dup"⟩ "dup" sampleState1 0 5 7).2.2 rfl

/-- Claim C4: in the registration request, the `auto_sync_schedule`
field is present exactly when `auto_sync_enabled` is true (the form
deletes it when disabled); the batch auto-sync payload carries the
schedule only when enabling and `null` when disabling. -/
theorem C4_schedule_present_iff_enabled (m : RepositoryModel) (enabled : Bool)
    (schedule : Option String) :
    ((onSubmitRequest m).auto_sync_schedule.isSome = m.auto_sync_enabled) ∧
    ((updateRepositoriesAutoSyncPayload enabled schedule).auto_sync_enabled = enabled ∧
      (updateRepositoriesAutoSyncPayload enabled schedule).auto_sync_schedule =
        if enabled then schedule else none) := by
  refine ⟨?_, rfl, rfl⟩
  by_cases h : m.auto_sync_enabled <;> simp [onSubmitRequest, h]

/-- Claim C5: in every reachable state `expired_at` equals the last
retention update's timestamp plus `retention_days`, and renewing
recomputes `expired_at` from the renewal time `now`, not from the
original creation time. -/
theorem C5_expiration_from_retention_update (s : OrchState) (h : Reachable s)
    (rid : Nat) (r : RepoRecord) (hr : s.repos rid = some r) (days now : Nat) :
    r.expiredAt = some (r.retentionSetAt + r.retentionDays) ∧
    (handleRenew s rid days now).2.repos rid =
      some { r with retentionDays := days, retentionSetAt := now, updatedAt := now,
                    expiredAt := some (now + days) } := by
  constructor
  · exact (reachable_inv h).2 rid r hr
  · simp [handleRenew, hr, updateRepo]

/-- Witness for C5: renewal of the sample repository at tick 100 with 7
days. -/
theorem C5_witness :
    sampleRecord1.expiredAt = some (sampleRecord1.retentionSetAt + sampleRecord1.retentionDays) ∧
    (handleRenew sampleState1 0 7 100).2.repos 0 =
      some { sampleRecord1 with retentionDays := 7, retentionSetAt := 100, updatedAt := 100,
                                expiredAt := some (100 + 7) } :=
  C5_expiration_from_retention_update sampleState1
    (Reachable.step Reachable.init (Step.create initState 0 10 21)) 0 sampleRecord1 rfl 7 100

/-- Claim C6: when the project name is left empty the request omits the
`project_name` field entirely; a non-empty name is sent unchanged. -/
theorem C6_project_name_omitted_iff_empty (m : RepositoryModel) :
    (m.project_name = "" → (onSubmitRequest m).project_name = none) ∧
    (m.project_name ≠ "" → (onSubmitRequest m).project_name = some m.project_name) := by
  constructor
  · intro h
    simp [onSubmitRequest, h]
  · intro h
    simp [onSubmitRequest, h]

/-- Witness for C6 on the two sample form models. -/
theorem C6_witness :
    (onSubmitRequest sampleModelAnon).project_name = none ∧
    (onSubmitRequest sampleModelNamed).project_name = some "proj" := by
  constructor
  · exact (C6_project_name_omitted_iff_empty sampleModelAnon).1 rfl
  · exact (C6_project_name_omitted_iff_empty sampleModelNamed).2 (by decide)

/-- Claim C7: every request the web client issues uses exactly the
method and path of the spec's endpoint table prefixed with `/api/v1`;
sync carries an empty JSON body, expiration renewal carries
`retention_days`, and the downstream log query carries `pod_name` and
`tail_lines`. -/
theorem C7_endpoints_match_spec (id : Nat) (pod : String) (tl : Nat) (days : ℚ) :
    ((specEndpointTable id).map (fun e => (e.1, "/api/v1" ++ e.2)) =
      [ (getRepositoriesReq.method, getRepositoriesReq.path),
        (addRepositoryReq.method, addRepositoryReq.path),
        ((deleteRepositoryReq id).method, (deleteRepositoryReq id).path),
        ((syncRepositoryReq id).method, (syncRepositoryReq id).path),
        ((updateRepositoryExpirationReq id days).method,
          (updateRepositoryExpirationReq id days).path),
        ((updateAutoSyncReq id).method, (updateAutoSyncReq id).path),
        ((getRepositoryLogsReq id).method, (getRepositoryLogsReq id).path),
        (getOpenGrokStatusReq.method, getOpenGrokStatusReq.path),
        ((getOpenGrokLogsReq pod tl).method, (getOpenGrokLogsReq pod tl).path),
        (getConfigReq.method, getConfigReq.path),
        (exportRepositoriesReq.method, exportRepositoriesReq.path),
        (importRepositoriesReq.method, importRepositoriesReq.path) ]) ∧
    (syncRepositoryReq id).body = some [] ∧
    (updateRepositoryExpirationReq id days).body = some [("retention_days", days)] ∧
    (getOpenGrokLogsReq pod tl).query = [("pod_name", pod), ("tail_lines", toString tl)] := by
  refine ⟨?_, rfl, rfl, rfl⟩
  simp only [specEndpointTable, List.map_cons, List.map_nil, getRepositoriesReq,
    addRepositoryReq, deleteRepositoryReq, syncRepositoryReq, updateRepositoryExpirationReq,
    updateAutoSyncReq, getRepositoryLogsReq, getOpenGrokStatusReq, getOpenGrokLogsReq,
    getConfigReq, exportRepositoriesReq, importRepositoriesReq, api_fold_repositories,
    api_fold_repository, api_fold_opengrok_status, api_fold_opengrok_logs, api_fold_config,
    api_fold_export, api_fold_import]
  simp only [← String.append_assoc, api_fold_repository_slash]

/-- Claim C8: after a refresh, the selection is exactly the repositories
of the new list whose id was previously selected — surviving selections
are kept, vanished ones are dropped, and nothing is ever added. -/
theorem C8_selection_preserved_exactly (selected repositories : List Repository)
    (r : Repository) :
    (r ∈ refreshSelection selected repositories ↔
      r ∈ repositories ∧ ∃ p ∈ selected, p.id = r.id) ∧
    refreshSelection selected repositories ⊆ repositories := by
  constructor
  · simp [refreshSelection, List.mem_filter, eq_comm]
  · intro x hx
    exact List.mem_of_mem_filter hx

/-- Claim C9: the bytes pipe is total, renders `null`, `undefined`, NaN
and 0 as `"0 KB"`, renders negative values without rescaling in KB, and
for positive values divides by 1024 while the value stays at least 1024
and a larger unit remains, then renders with `toFixed` and the reached
unit. -/
theorem C9_bytes_pipe_behaviour (p : ℕ) (v : ℚ) :
    bytesTransform none p = "0 KB" ∧
    bytesTransform (some .nan) p = "0 KB" ∧
    bytesTransform (some (.num 0)) p = "0 KB" ∧
    (v < 0 → bytesTransform (some (.num v)) p = toFixed v p ++ " KB") ∧
    (0 < v → ∃ k, k ≤ 3 ∧
      bytesTransform (some (.num v)) p =
        toFixed (v / 1024 ^ k) p ++ " " ++ bytesUnits.getD k "" ∧
      (v / 1024 ^ k < 1024 ∨ k = 3) ∧
      (∀ m, m < k → 1024 ≤ v / 1024 ^ m)) := by
  refine ⟨rfl, rfl, by simp [bytesTransform], ?_, ?_⟩
  · intro hv
    have hne : v ≠ 0 := ne_of_lt hv
    have hloop : bytesLoop v 0 = (v, 0) := by
      rw [bytesLoop, dif_neg]
      intro hcon
      exact absurd hcon.1 (not_le.mpr (hv.trans (by norm_num)))
    have hb : bytesTransform (some (.num v)) p =
        toFixed (bytesLoop v 0).1 p ++ " " ++ bytesUnits.getD (bytesLoop v 0).2 "" := by
      simp [bytesTransform, hne]
    rw [hb, hloop]
    rw [String.append_assoc]
    rfl
  · intro hv
    have hne : v ≠ 0 := ne_of_gt hv
    obtain ⟨k, hk1, hk2, hk3, hk4⟩ := bytesLoop_spec v 0 (by omega)
    have hb : bytesTransform (some (.num v)) p =
        toFixed (bytesLoop v 0).1 p ++ " " ++ bytesUnits.getD (bytesLoop v 0).2 "" := by
      simp [bytesTransform, hne]
    refine ⟨k, by omega, ?_, ?_, hk4⟩
    · rw [hb, hk1]
      simp
    · simpa using hk3

/-- Witness for C9: a negative value stays in KB, and null renders as
`"0 KB"`. -/
theorem C9_witness :
    bytesTransform (some (.num (-5))) 2 = "-5.00 KB" ∧
    bytesTransform none 2 = "0 KB" := by
  constructor
  · have h := (C9_bytes_pipe_behaviour 2 (-5)).2.2.2.1 (by norm_num)
    rw [h]
    have ht : toFixed (-5) 2 = "-5.00" := by
      rw [toFixed]
      norm_num
      decide
    rw [ht]
    rfl
  · exact (C9_bytes_pipe_behaviour 2 0).1

end Crpaas


